import Mathlib

/-!
Verification development for the player-core crate of wasm-video-player.

Shallow embedding conventions: Rust structs become Lean structures; a method
taking &mut self becomes a function returning the pair of the Rust return
value and the updated receiver; Vec<u8> becomes List Nat (machine bytes as
naturals); Rust &str values handled by the subtitle parsing functions become
List Char; Result<T, E> becomes Except E T; JsValue produced via
JsValue::from_str becomes String.
-/

/-- Error enum from error.rs (PlayerError), one constructor per variant,
each carrying its message string. -/
inductive PlayerError where
  | Demuxer (msg : String)
  | Decoder (msg : String)
  | FrameBuffer (msg : String)
  | Subtitle (msg : String)
  | InvalidFormat (msg : String)
  | Io (msg : String)
  | Internal (msg : String)
deriving DecidableEq

instance {ε α : Type} [DecidableEq ε] [DecidableEq α] :
    DecidableEq (Except ε α)
  | Except.error e1, Except.error e2 =>
      if h : e1 = e2 then Decidable.isTrue (congrArg Except.error h)
      else Decidable.isFalse (fun hc => h (Except.error.inj hc))
  | Except.error _, Except.ok _ =>
      Decidable.isFalse (fun hc => Except.noConfusion hc)
  | Except.ok _, Except.error _ =>
      Decidable.isFalse (fun hc => Except.noConfusion hc)
  | Except.ok a1, Except.ok a2 =>
      if h : a1 = a2 then Decidable.isTrue (congrArg Except.ok h)
      else Decidable.isFalse (fun hc => h (Except.ok.inj hc))

/-- Display string of a PlayerError, from the thiserror derive in error.rs. -/
def PlayerError.toDisplay : PlayerError → String
  | .Demuxer m => "Demuxer error: " ++ m
  | .Decoder m => "Decoder error: " ++ m
  | .FrameBuffer m => "FrameBuffer error: " ++ m
  | .Subtitle m => "Subtitle error: " ++ m
  | .InvalidFormat m => "Invalid format: " ++ m
  | .Io m => "I/O error: " ++ m
  | .Internal m => "Internal error: " ++ m

/-- From<PlayerError> for JsValue in error.rs: JsValue::from_str of the
display string; JsValue is embedded as String. -/
def PlayerError.toJs (e : PlayerError) : String := e.toDisplay

/-- PixelFormat from decoder/mod.rs. -/
inductive PixelFormat where
  | Yuv420p
  | Rgba
  | Rgb
deriving DecidableEq

/-- SampleFormat from decoder/mod.rs. -/
inductive SampleFormat where
  | S16
  | F32
deriving DecidableEq

/-- VideoFrame from decoder/mod.rs. -/
structure VideoFrame where
  width : Nat
  height : Nat
  pts_ms : Nat
  format : PixelFormat
  data : List Nat
deriving DecidableEq

/-- AudioFrame from decoder/mod.rs. -/
structure AudioFrame where
  channels : Nat
  sample_rate : Nat
  pts_ms : Nat
  format : SampleFormat
  data : List Nat
deriving DecidableEq

/-- FrameBufferConfig from frame_buffer.rs. -/
structure FrameBufferConfig where
  max_video_frames : Nat
  max_audio_frames : Nat
deriving DecidableEq

/-- Default for FrameBufferConfig: 30 video frames, 50 audio frames. -/
def FrameBufferConfig.default : FrameBufferConfig :=
  { max_video_frames := 30, max_audio_frames := 50 }

/-- VideoFrameBuffer from frame_buffer.rs: a VecDeque of frames (head at the
front of the list) plus the fixed capacity. -/
structure VideoFrameBuffer where
  frames : List VideoFrame
  capacity : Nat
deriving DecidableEq

namespace VideoFrameBuffer

/-- VideoFrameBuffer::new. -/
def new (capacity : Nat) : VideoFrameBuffer :=
  { frames := [], capacity := capacity }

/-- VideoFrameBuffer::push: errors when len() >= capacity, otherwise
push_back. -/
def push (b : VideoFrameBuffer) (frame : VideoFrame) :
    Except PlayerError VideoFrameBuffer :=
  if b.frames.length ≥ b.capacity then
    Except.error (PlayerError.FrameBuffer "Video buffer is full")
  else
    Except.ok { b with frames := b.frames ++ [frame] }

/-- VideoFrameBuffer::pop: pop_front. -/
def pop (b : VideoFrameBuffer) : Option VideoFrame × VideoFrameBuffer :=
  match b.frames with
  | [] => (none, b)
  | f :: rest => (some f, { b with frames := rest })

/-- VideoFrameBuffer::peek. -/
def peek (b : VideoFrameBuffer) : Option VideoFrame :=
  b.frames.head?

/-- VideoFrameBuffer::len. -/
def len (b : VideoFrameBuffer) : Nat :=
  b.frames.length

/-- VideoFrameBuffer::clear. -/
def clear (b : VideoFrameBuffer) : VideoFrameBuffer :=
  { b with frames := [] }

/-- VideoFrameBuffer::front_pts. -/
def front_pts (b : VideoFrameBuffer) : Option Nat :=
  b.frames.head?.map (fun f => f.pts_ms)

/-- VideoFrameBuffer::back_pts. -/
def back_pts (b : VideoFrameBuffer) : Option Nat :=
  b.frames.getLast?.map (fun f => f.pts_ms)

end VideoFrameBuffer

/-- AudioFrameBuffer from frame_buffer.rs. -/
structure AudioFrameBuffer where
  frames : List AudioFrame
  capacity : Nat
deriving DecidableEq

namespace AudioFrameBuffer

/-- AudioFrameBuffer::new. -/
def new (capacity : Nat) : AudioFrameBuffer :=
  { frames := [], capacity := capacity }

/-- AudioFrameBuffer::push: errors when len() >= capacity, otherwise
push_back. -/
def push (b : AudioFrameBuffer) (frame : AudioFrame) :
    Except PlayerError AudioFrameBuffer :=
  if b.frames.length ≥ b.capacity then
    Except.error (PlayerError.FrameBuffer "Audio buffer is full")
  else
    Except.ok { b with frames := b.frames ++ [frame] }

/-- AudioFrameBuffer::pop: pop_front. -/
def pop (b : AudioFrameBuffer) : Option AudioFrame × AudioFrameBuffer :=
  match b.frames with
  | [] => (none, b)
  | f :: rest => (some f, { b with frames := rest })

/-- AudioFrameBuffer::peek. -/
def peek (b : AudioFrameBuffer) : Option AudioFrame :=
  b.frames.head?

/-- AudioFrameBuffer::len. -/
def len (b : AudioFrameBuffer) : Nat :=
  b.frames.length

/-- AudioFrameBuffer::clear. -/
def clear (b : AudioFrameBuffer) : AudioFrameBuffer :=
  { b with frames := [] }

end AudioFrameBuffer

/-- FrameBufferManager from frame_buffer.rs. -/
structure FrameBufferManager where
  video : VideoFrameBuffer
  audio : AudioFrameBuffer
deriving DecidableEq

/-- BufferStats from frame_buffer.rs. -/
structure BufferStats where
  video_frames : Nat
  video_capacity : Nat
  audio_frames : Nat
  audio_capacity : Nat
deriving DecidableEq

namespace FrameBufferManager

/-- FrameBufferManager::new. -/
def new (config : FrameBufferConfig) : FrameBufferManager :=
  { video := VideoFrameBuffer.new config.max_video_frames,
    audio := AudioFrameBuffer.new config.max_audio_frames }

/-- Default for FrameBufferManager. -/
def default : FrameBufferManager :=
  new FrameBufferConfig.default

/-- FrameBufferManager::clear: clears both queues. -/
def clear (m : FrameBufferManager) : FrameBufferManager :=
  { video := m.video.clear, audio := m.audio.clear }

/-- FrameBufferManager::total_frames. -/
def total_frames (m : FrameBufferManager) : Nat :=
  m.video.len + m.audio.len

/-- FrameBufferManager::stats. -/
def stats (m : FrameBufferManager) : BufferStats :=
  { video_frames := m.video.len,
    video_capacity := m.video.capacity,
    audio_frames := m.audio.len,
    audio_capacity := m.audio.capacity }

end FrameBufferManager

/-- An abstract client operation on a video frame buffer: push (keeping the
old buffer when push reports an error), pop, or clear. -/
inductive VideoBufferOp where
  | push (f : VideoFrame)
  | pop
  | clear
deriving DecidableEq

/-- Applies one client operation to a video frame buffer. -/
def VideoFrameBuffer.applyOp (b : VideoFrameBuffer) :
    VideoBufferOp → VideoFrameBuffer
  | VideoBufferOp.push f =>
      match b.push f with
      | Except.ok b2 => b2
      | Except.error _ => b
  | VideoBufferOp.pop => (b.pop).2
  | VideoBufferOp.clear => b.clear

/-- Applies a sequence of client operations to a video frame buffer. -/
def VideoFrameBuffer.applyOps (b : VideoFrameBuffer)
    (ops : List VideoBufferOp) : VideoFrameBuffer :=
  ops.foldl VideoFrameBuffer.applyOp b

/-- Pushes a list of frames in order, stopping at the first error. -/
def VideoFrameBuffer.pushAll :
    VideoFrameBuffer → List VideoFrame → Except PlayerError VideoFrameBuffer
  | b, [] => Except.ok b
  | b, f :: rest =>
      match b.push f with
      | Except.error e => Except.error e
      | Except.ok b2 => b2.pushAll rest

/-- Pops n times, collecting the frames returned, in order. -/
def VideoFrameBuffer.popN :
    VideoFrameBuffer → Nat → List VideoFrame × VideoFrameBuffer
  | b, 0 => ([], b)
  | b, n + 1 =>
      match b.pop with
      | (none, b2) => ([], b2)
      | (some f, b2) =>
          let r := b2.popN n
          (f :: r.1, r.2)

/-- An abstract client operation on an audio frame buffer. -/
inductive AudioBufferOp where
  | push (f : AudioFrame)
  | pop
  | clear
deriving DecidableEq

/-- Applies one client operation to an audio frame buffer. -/
def AudioFrameBuffer.applyOp (b : AudioFrameBuffer) :
    AudioBufferOp → AudioFrameBuffer
  | AudioBufferOp.push f =>
      match b.push f with
      | Except.ok b2 => b2
      | Except.error _ => b
  | AudioBufferOp.pop => (b.pop).2
  | AudioBufferOp.clear => b.clear

/-- Applies a sequence of client operations to an audio frame buffer. -/
def AudioFrameBuffer.applyOps (b : AudioFrameBuffer)
    (ops : List AudioBufferOp) : AudioFrameBuffer :=
  ops.foldl AudioFrameBuffer.applyOp b

/-- Pushes a list of frames in order, stopping at the first error. -/
def AudioFrameBuffer.pushAll :
    AudioFrameBuffer → List AudioFrame → Except PlayerError AudioFrameBuffer
  | b, [] => Except.ok b
  | b, f :: rest =>
      match b.push f with
      | Except.error e => Except.error e
      | Except.ok b2 => b2.pushAll rest

/-- Pops n times, collecting the frames returned, in order. -/
def AudioFrameBuffer.popN :
    AudioFrameBuffer → Nat → List AudioFrame × AudioFrameBuffer
  | b, 0 => ([], b)
  | b, n + 1 =>
      match b.pop with
      | (none, b2) => ([], b2)
      | (some f, b2) =>
          let r := b2.popN n
          (f :: r.1, r.2)

/-- ContainerFormat from demuxer/mod.rs. -/
inductive ContainerFormat where
  | Mp4
  | Mkv
  | WebM
  | Unknown
deriving DecidableEq

/-- StreamType from demuxer/mod.rs. -/
inductive StreamType where
  | Video
  | Audio
  | Subtitle
deriving DecidableEq

/-- StreamInfo from demuxer/mod.rs. -/
structure StreamInfo where
  index : Nat
  stream_type : StreamType
  codec : String
  duration_ms : Option Nat
deriving DecidableEq

/-- Demuxer from demuxer/mod.rs. -/
structure Demuxer where
  format : Option ContainerFormat
  streams : List StreamInfo
  data : List Nat
  position : Nat
  initialized : Bool
deriving DecidableEq

/-- Magic bytes of the MP4 ftyp box type tag, the ASCII bytes of "ftyp". -/
def ftypBytes : List Nat := [0x66, 0x74, 0x79, 0x70]

/-- Magic bytes of the EBML header (MKV/WebM). -/
def ebmlBytes : List Nat := [0x1A, 0x45, 0xDF, 0xA3]

namespace Demuxer

/-- Demuxer::new. -/
def new : Demuxer :=
  { format := none, streams := [], data := [], position := 0,
    initialized := false }

/-- Demuxer::detect_format: data shorter than 12 bytes is an InvalidFormat
error; bytes 4..8 equal to "ftyp" give Mp4; bytes 0..4 equal to the EBML
magic give Mkv; otherwise Unknown. (&self is unused by the method, so the
embedding is a plain function of the byte slice.) -/
def detect_format (data : List Nat) : Except PlayerError ContainerFormat :=
  if data.length < 12 then
    Except.error (PlayerError.InvalidFormat "Data too short to detect format")
  else if 8 ≤ data.length ∧ (data.drop 4).take 4 = ftypBytes then
    Except.ok ContainerFormat.Mp4
  else if 4 ≤ data.length ∧ data.take 4 = ebmlBytes then
    Except.ok ContainerFormat.Mkv
  else
    Except.ok ContainerFormat.Unknown

/-- Demuxer::parse_streams: for a known container format, pushes one
placeholder video StreamInfo; otherwise leaves the stream list alone. -/
def parse_streams (d : Demuxer) : Except PlayerError Demuxer :=
  match d.format with
  | some ContainerFormat.Mp4 | some ContainerFormat.Mkv
  | some ContainerFormat.WebM =>
      Except.ok { d with streams := d.streams ++
        [{ index := 0, stream_type := StreamType.Video, codec := "unknown",
           duration_ms := none }] }
  | _ => Except.ok d

/-- Demuxer::init: rejects empty data, detects the format, stores the data
and format, resets the position, marks the demuxer initialized, and parses
the stream table. -/
def init (d : Demuxer) (data : List Nat) :
    Except PlayerError Unit × Demuxer :=
  if data.isEmpty then
    (Except.error (PlayerError.Demuxer "Empty data provided"), d)
  else
    match detect_format data with
    | Except.error e => (Except.error e, d)
    | Except.ok fmt =>
        let d1 := { d with data := data, format := some fmt, position := 0,
                           initialized := true }
        match parse_streams d1 with
        | Except.error e => (Except.error e, d1)
        | Except.ok d2 => (Except.ok (), d2)

/-- Demuxer::seek: error when not initialized, otherwise a no-op stub. -/
def seek (d : Demuxer) (timestamp_ms : Nat) :
    Except PlayerError Unit × Demuxer :=
  if d.initialized then
    (Except.ok (), d)
  else
    (Except.error (PlayerError.Demuxer "Demuxer not initialized"), d)

/-- Demuxer::read_packet: error when not initialized, otherwise the stub
yields end-of-stream (none). -/
def read_packet (d : Demuxer) :
    Except PlayerError (Option Unit) × Demuxer :=
  if d.initialized then
    (Except.ok none, d)
  else
    (Except.error (PlayerError.Demuxer "Demuxer not initialized"), d)

end Demuxer

/-- VideoCodec from decoder/mod.rs. -/
inductive VideoCodec where
  | H264
  | H265
  | Vp8
  | Vp9
  | Av1
deriving DecidableEq

/-- AudioCodec from decoder/mod.rs. -/
inductive AudioCodec where
  | Aac
  | Mp3
  | Opus
  | Vorbis
deriving DecidableEq

/-- DecoderConfig from decoder/mod.rs. -/
structure DecoderConfig where
  hardware_acceleration : Bool
  threads : Nat
deriving DecidableEq

/-- Default for DecoderConfig. -/
def DecoderConfig.default : DecoderConfig :=
  { hardware_acceleration := true, threads := 0 }

/-- VideoDecoder from decoder/mod.rs. -/
structure VideoDecoder where
  codec : Option VideoCodec
  config : DecoderConfig
  initialized : Bool
deriving DecidableEq

namespace VideoDecoder

/-- VideoDecoder::new. -/
def new (config : DecoderConfig) : VideoDecoder :=
  { codec := none, config := config, initialized := false }

/-- Default for VideoDecoder. -/
def default : VideoDecoder :=
  new DecoderConfig.default

/-- VideoDecoder::flush: error when not initialized, otherwise the stub
returns no buffered frames. -/
def flush (d : VideoDecoder) :
    Except PlayerError (List VideoFrame) × VideoDecoder :=
  if d.initialized then
    (Except.ok [], d)
  else
    (Except.error (PlayerError.Decoder "Decoder not initialized"), d)

end VideoDecoder

/-- AudioDecoder from decoder/mod.rs. -/
structure AudioDecoder where
  codec : Option AudioCodec
  config : DecoderConfig
  initialized : Bool
deriving DecidableEq

namespace AudioDecoder

/-- AudioDecoder::new. -/
def new (config : DecoderConfig) : AudioDecoder :=
  { codec := none, config := config, initialized := false }

/-- Default for AudioDecoder. -/
def default : AudioDecoder :=
  new DecoderConfig.default

/-- AudioDecoder::flush: error when not initialized, otherwise the stub
returns no buffered frames. -/
def flush (d : AudioDecoder) :
    Except PlayerError (List AudioFrame) × AudioDecoder :=
  if d.initialized then
    (Except.ok [], d)
  else
    (Except.error (PlayerError.Decoder "Decoder not initialized"), d)

end AudioDecoder

/-- Splits a character list at every occurrence of the separator character,
as Rust str::split with a char pattern: n separators give n+1 pieces, and
the empty input gives one empty piece. -/
def splitOnChar (sep : Char) : List Char → List (List Char)
  | [] => [[]]
  | c :: rest =>
      if c = sep then
        [] :: splitOnChar sep rest
      else
        match splitOnChar sep rest with
        | [] => [[c]]
        | grp :: grps => (c :: grp) :: grps

/-- Replaces every occurrence of a character, as Rust str::replace with
one-character pattern and replacement. -/
def replaceChar (a b : Char) (s : List Char) : List Char :=
  s.map (fun c => if c = a then b else c)

/-- Whether the second list starts with the first, as Rust
str::starts_with. -/
def startsWithChars : List Char → List Char → Bool
  | [], _ => true
  | _ :: _, [] => false
  | p :: ps, c :: cs => p == c && startsWithChars ps cs

/-- Whether the pattern occurs as a contiguous subsequence, as Rust
str::contains. -/
def containsSeq (pat : List Char) : List Char → Bool
  | [] => startsWithChars pat []
  | c :: rest => startsWithChars pat (c :: rest) || containsSeq pat rest

/-- Splits at every non-overlapping occurrence of a non-empty separator
sequence, left to right, as Rust str::split with a &str pattern. The
auxiliary fuel argument only makes the recursion structural; it is set to
the input length, which the scan never exceeds. -/
def splitOnSeqAux (sep : List Char) : Nat → List Char → List (List Char)
  | _, [] => [[]]
  | 0, s => [s]
  | fuel + 1, c :: rest =>
      if sep ≠ [] ∧ startsWithChars sep (c :: rest) then
        [] :: splitOnSeqAux sep fuel ((c :: rest).drop sep.length)
      else
        match splitOnSeqAux sep fuel rest with
        | [] => [[c]]
        | grp :: grps => (c :: grp) :: grps

/-- Rust str::split with a non-empty &str pattern. -/
def splitOnSeq (sep s : List Char) : List (List Char) :=
  splitOnSeqAux sep s.length s

/-- Drops leading and trailing whitespace, as Rust str::trim (the inputs in
this development are ASCII, where Char.isWhitespace matches Rust's
char::is_whitespace). -/
def trimChars (s : List Char) : List Char :=
  ((s.dropWhile Char.isWhitespace).reverse.dropWhile Char.isWhitespace).reverse

/-- Rust str::lines: split on a newline, drop one trailing empty piece, and
strip one trailing carriage return from each line. -/
def rustLines (s : List Char) : List (List Char) :=
  if s = [] then []
  else
    let raw := splitOnChar '\n' s
    let raw2 := if raw.getLast? = some [] then raw.dropLast else raw
    raw2.map (fun l => if l.getLast? = some '\r' then l.dropLast else l)

/-- Digit-accumulation loop of Rust u64::from_str: fails at the first
non-digit character. -/
def parseU64Digits : List Char → Nat → Option Nat
  | [], acc => some acc
  | c :: rest, acc =>
      if c.isDigit then
        parseU64Digits rest (acc * 10 + (c.toNat - '0'.toNat))
      else
        none

/-- Rust str::parse::<u64>: an optional leading plus sign, then one or more
digits, rejecting values that do not fit in 64 bits. -/
def parseU64 (s : List Char) : Option Nat :=
  let body := match s with
    | '+' :: rest => rest
    | _ => s
  if body = [] then none
  else
    match parseU64Digits body 0 with
    | none => none
    | some v => if v < 2 ^ 64 then some v else none

/-- SubtitleFormat from subtitle/mod.rs. -/
inductive SubtitleFormat where
  | Srt
  | Ass
  | Vtt
deriving DecidableEq

/-- SubtitleStyle from subtitle/mod.rs. -/
structure SubtitleStyle where
  font_family : Option String
  font_size : Option Nat
  color : Option String
  background_color : Option String
  bold : Bool
  italic : Bool
  underline : Bool
deriving DecidableEq

/-- SubtitleCue from subtitle/mod.rs; the text is kept as the character list
taken from the input. -/
structure SubtitleCue where
  id : String
  start_ms : Nat
  end_ms : Nat
  text : List Char
  style : Option SubtitleStyle
deriving DecidableEq

/-- SubtitleTrack from subtitle/mod.rs. -/
structure SubtitleTrack where
  format : SubtitleFormat
  language : Option String
  title : Option String
  cues : List SubtitleCue
deriving DecidableEq

namespace SubtitleTrack

/-- SubtitleTrack::new. -/
def new (format : SubtitleFormat) : SubtitleTrack :=
  { format := format, language := none, title := none, cues := [] }

/-- SubtitleTrack::cues_at: the cues with start_ms <= t < end_ms, in storage
order (the source returns references; the embedding returns the cues). -/
def cues_at (track : SubtitleTrack) (timestamp_ms : Nat) : List SubtitleCue :=
  track.cues.filter
    (fun cue => decide (timestamp_ms ≥ cue.start_ms) &&
                decide (timestamp_ms < cue.end_ms))

/-- SubtitleTrack::add_cue. -/
def add_cue (track : SubtitleTrack) (cue : SubtitleCue) : SubtitleTrack :=
  { track with cues := track.cues ++ [cue] }

/-- SubtitleTrack::cue_count. -/
def cue_count (track : SubtitleTrack) : Nat :=
  track.cues.length

end SubtitleTrack

namespace SubtitleParser

/-- SubtitleParser::detect_format from subtitle/mod.rs: WEBVTT marker at the
start gives Vtt; a [Script Info] start or a [V4+ Styles] occurrence gives
Ass; the default is Srt. -/
def detect_format (data : List Char) : SubtitleFormat :=
  let trimmed := trimChars data
  if startsWithChars "WEBVTT".data trimmed then
    SubtitleFormat.Vtt
  else if startsWithChars "[Script Info]".data trimmed ||
          containsSeq "[V4+ Styles]".data trimmed then
    SubtitleFormat.Ass
  else
    SubtitleFormat.Srt

/-- SubtitleParser::parse_srt_timestamp: normalizes the comma to a period,
requires exactly three colon-separated components, parses hours, minutes,
then seconds and optional milliseconds around a period. -/
def parse_srt_timestamp (ts : List Char) : Option Nat :=
  match splitOnChar ':' (replaceChar ',' '.' ts) with
  | [p0, p1, p2] =>
      match parseU64 p0, parseU64 p1 with
      | some hours, some minutes =>
          match splitOnChar '.' p2 with
          | [] => none
          | s0 :: rest =>
              match parseU64 s0 with
              | none => none
              | some seconds =>
                  match rest with
                  | [] => some (hours * 3600000 + minutes * 60000 +
                                seconds * 1000 + 0)
                  | s1 :: _ =>
                      match parseU64 s1 with
                      | none => none
                      | some millis =>
                          some (hours * 3600000 + minutes * 60000 +
                                seconds * 1000 + millis)
      | _, _ => none
  | _ => none

/-- SubtitleParser::parse_srt_timing: splits on the arrow, requires exactly
two parts, and parses both trimmed timestamps. -/
def parse_srt_timing (timing : List Char) : Option (Nat × Nat) :=
  match splitOnSeq "-->".data timing with
  | [a, b] =>
      match parse_srt_timestamp (trimChars a),
            parse_srt_timestamp (trimChars b) with
      | some s, some e => some (s, e)
      | _, _ => none
  | _ => none

/-- One iteration of the SRT block loop in SubtitleParser::parse_srt: a
block with fewer than three lines, or an unparsable timing line, yields no
cue. -/
def srtBlockCue (index : Nat) (block : List Char) : Option SubtitleCue :=
  let lines := rustLines block
  if lines.length < 3 then none
  else
    match lines with
    | _ :: timing_line :: restLines =>
        match parse_srt_timing timing_line with
        | some (start_ms, end_ms) =>
            some { id := toString (index + 1), start_ms := start_ms,
                   end_ms := end_ms,
                   text := List.intercalate ['\n'] restLines, style := none }
        | none => none
    | _ => none

/-- SubtitleParser::parse_srt: splits the input into blank-line-separated
blocks, drops whitespace-only blocks, and collects the cue of each
remaining block. -/
def parse_srt (data : List Char) : Except PlayerError SubtitleTrack :=
  let blocks := (splitOnSeq ['\n', '\n'] data).filter
    (fun s => !(trimChars s).isEmpty)
  Except.ok { format := SubtitleFormat.Srt, language := none, title := none,
              cues := blocks.enum.filterMap
                (fun p => srtBlockCue p.1 p.2) }

/-- SubtitleParser::parse_vtt: the stub returns an empty Vtt track. -/
def parse_vtt (_data : List Char) : Except PlayerError SubtitleTrack :=
  Except.ok (SubtitleTrack.new SubtitleFormat.Vtt)

/-- SubtitleParser::parse_ass: the stub returns an empty Ass track. -/
def parse_ass (_data : List Char) : Except PlayerError SubtitleTrack :=
  Except.ok (SubtitleTrack.new SubtitleFormat.Ass)

/-- SubtitleParser::parse: empty input is a Subtitle error; otherwise the
format (given or detected) selects the per-format parser. -/
def parse (data : List Char) (format : Option SubtitleFormat) :
    Except PlayerError SubtitleTrack :=
  if data.isEmpty then
    Except.error (PlayerError.Subtitle "Empty subtitle data")
  else
    match format.getD (detect_format data) with
    | SubtitleFormat.Srt => parse_srt data
    | SubtitleFormat.Vtt => parse_vtt data
    | SubtitleFormat.Ass => parse_ass data

end SubtitleParser

/-- PlayerState from lib.rs. -/
inductive PlayerState where
  | Idle
  | Loading
  | Ready
  | Playing
  | Paused
  | Ended
  | Error
deriving DecidableEq

/-- PlayerCore from lib.rs. The subtitle_parser field is a stateless unit
struct in the source and is omitted from the state. -/
structure PlayerCore where
  state : PlayerState
  demuxer : Demuxer
  video_decoder : VideoDecoder
  audio_decoder : AudioDecoder
  frame_buffer : FrameBufferManager
deriving DecidableEq

/-- Alphabet of component operations that PlayerCore::seek can perform on
its owned components, used to record the order of calls the method makes.
flushVideo and flushAudio are in the alphabet so that a claimed decoder
flush during seek is expressible, whether or not the code performs one. -/
inductive SeekOp where
  | demuxSeek (timestamp_ms : Nat)
  | clearBuffers
  | flushVideo
  | flushAudio
deriving DecidableEq

namespace PlayerCore

/-- PlayerCore::new. -/
def new : PlayerCore :=
  { state := PlayerState.Idle,
    demuxer := Demuxer.new,
    video_decoder := VideoDecoder.default,
    audio_decoder := AudioDecoder.default,
    frame_buffer := FrameBufferManager.default }

/-- PlayerCore::load: sets state to Loading, initializes the demuxer
(propagating its error as a JsValue), then sets state to Ready. There is no
check of the current state before loading. -/
def load (p : PlayerCore) (data : List Nat) :
    Except String Unit × PlayerCore :=
  let p1 := { p with state := PlayerState.Loading }
  match Demuxer.init p1.demuxer data with
  | (Except.error e, d) => (Except.error e.toJs, { p1 with demuxer := d })
  | (Except.ok (), d) =>
      (Except.ok (), { p1 with demuxer := d, state := PlayerState.Ready })

/-- PlayerCore::play: rejected unless the state is Ready or Paused. -/
def play (p : PlayerCore) : Except String Unit × PlayerCore :=
  if p.state ≠ PlayerState.Ready ∧ p.state ≠ PlayerState.Paused then
    (Except.error "Cannot play: invalid state", p)
  else
    (Except.ok (), { p with state := PlayerState.Playing })

/-- PlayerCore::pause: rejected unless the state is Playing. -/
def pause (p : PlayerCore) : Except String Unit × PlayerCore :=
  if p.state ≠ PlayerState.Playing then
    (Except.error "Cannot pause: not playing", p)
  else
    (Except.ok (), { p with state := PlayerState.Paused })

/-- PlayerCore::seek, instrumented with the ordered list of component
operations the method performs: the source calls demuxer.seek (propagating
its error), then frame_buffer.clear; it makes no decoder flush call. -/
def seekT (p : PlayerCore) (timestamp_ms : Nat) :
    (Except String Unit × PlayerCore) × List SeekOp :=
  match Demuxer.seek p.demuxer timestamp_ms with
  | (Except.error e, d) =>
      ((Except.error e.toJs, { p with demuxer := d }),
       [SeekOp.demuxSeek timestamp_ms])
  | (Except.ok (), d) =>
      ((Except.ok (), { p with demuxer := d,
                               frame_buffer := p.frame_buffer.clear }),
       [SeekOp.demuxSeek timestamp_ms, SeekOp.clearBuffers])

/-- PlayerCore::seek, result only. -/
def seek (p : PlayerCore) (timestamp_ms : Nat) :
    Except String Unit × PlayerCore :=
  (p.seekT timestamp_ms).1

/-- PlayerCore::reset: back to Idle with fresh demuxer and decoders; the
frame buffer is cleared in place. -/
def reset (p : PlayerCore) : PlayerCore :=
  { state := PlayerState.Idle,
    demuxer := Demuxer.new,
    video_decoder := VideoDecoder.default,
    audio_decoder := AudioDecoder.default,
    frame_buffer := p.frame_buffer.clear }

/-- PlayerCore::buffer_stats: the snapshot serialized to JSON in the source;
the embedding returns the structured snapshot itself. -/
def buffer_stats (p : PlayerCore) : BufferStats :=
  p.frame_buffer.stats

end PlayerCore

/-- Minimal MP4 data from the repository tests: a 20-byte ftyp box header
with major brand isom. -/
def sampleMp4 : List Nat :=
  [0, 0, 0, 20, 0x66, 0x74, 0x79, 0x70, 0x69, 0x73, 0x6F, 0x6D, 0, 0, 0, 0]

/-- Five bytes, shorter than the 12-byte detection minimum (from the
reject-short-data repository test). -/
def shortBytes : List Nat := [0, 1, 2, 3, 4]

/-- EBML magic followed by twenty zero bytes (from the detect-mkv
repository test). -/
def mkvSample : List Nat := ebmlBytes ++ List.replicate 20 0

/-- Twenty 0xFF bytes: no known magic (from the unknown-format repository
test). -/
def unknownSample : List Nat := List.replicate 20 0xFF

/-- Twelve bytes carrying the EBML magic at offset 0 and the ftyp tag at
offset 4 at the same time. -/
def overlapSample : List Nat :=
  [0x1A, 0x45, 0xDF, 0xA3, 0x66, 0x74, 0x79, 0x70, 0, 0, 0, 0]

/-- The player after loading sampleMp4 into a fresh PlayerCore. -/
def demoPlayer : PlayerCore :=
  (PlayerCore.new.load sampleMp4).2

/-- demoPlayer after play: a player in the Playing state. -/
def playingPlayer : PlayerCore :=
  (demoPlayer.play).2

/-- A test video frame with the given timestamp, as the repository test
helper create_test_video_frame. -/
def testVideoFrame (pts : Nat) : VideoFrame :=
  { width := 1920, height := 1080, pts_ms := pts,
    format := PixelFormat.Yuv420p, data := [] }

/-- A test audio frame with the given timestamp, as the repository test
helper create_test_audio_frame. -/
def testAudioFrame (pts : Nat) : AudioFrame :=
  { channels := 2, sample_rate := 48000, pts_ms := pts,
    format := SampleFormat.F32, data := [] }

/-- A non-empty WebVTT input holding one cue. -/
def vttSample : List Char :=
  "WEBVTT\n\n00:00:01.000 --> 00:00:04.000\nHello".data

/-- A non-empty ASS input holding a script-info header and one dialogue
line. -/
def assSample : List Char :=
  "[Script Info]\nTitle: Test\n\n[Events]\nDialogue: 0,0:00:01.00,0:00:04.00,Default,,0,0,0,,Hello".data

/-- The cue of the interval boundary property: [1000, 3000). -/
def boundaryCue : SubtitleCue :=
  { id := "1", start_ms := 1000, end_ms := 3000,
    text := "First subtitle".data, style := none }

/-- A track holding exactly boundaryCue. -/
def boundaryTrack : SubtitleTrack :=
  { format := SubtitleFormat.Srt, language := none, title := none,
    cues := [boundaryCue] }

theorem VideoFrameBuffer.applyOp_capacity (b : VideoFrameBuffer)
    (op : VideoBufferOp) : (b.applyOp op).capacity = b.capacity := by
  cases op with
  | push f =>
      simp only [applyOp, push]
      by_cases hfull : b.frames.length ≥ b.capacity
      · rw [if_pos hfull]
      · rw [if_neg hfull]
  | pop =>
      simp only [applyOp, pop]
      cases hb : b.frames <;> simp [hb]
  | clear => rfl

theorem VideoFrameBuffer.applyOp_length_le (b : VideoFrameBuffer)
    (op : VideoBufferOp) (h : b.frames.length ≤ b.capacity) :
    (b.applyOp op).frames.length ≤ b.capacity := by
  cases op with
  | push f =>
      simp only [applyOp, push]
      by_cases hfull : b.frames.length ≥ b.capacity
      · rw [if_pos hfull]
        exact h
      · rw [if_neg hfull]
        simp only [List.length_append, List.length_cons, List.length_nil]
        omega
  | pop =>
      simp only [applyOp, pop]
      cases hb : b.frames with
      | nil => simp [hb]
      | cons f rest =>
          rw [hb] at h
          simp only [List.length_cons] at h
          simp [hb]
          omega
  | clear => simp [applyOp, clear]

theorem VideoFrameBuffer.applyOps_length_le (ops : List VideoBufferOp)
    (b : VideoFrameBuffer) (h : b.frames.length ≤ b.capacity) :
    (b.applyOps ops).frames.length ≤ b.capacity := by
  induction ops generalizing b with
  | nil => exact h
  | cons op rest ih =>
      have hcap := VideoFrameBuffer.applyOp_capacity b op
      have hlen := VideoFrameBuffer.applyOp_length_le b op h
      have := ih (b.applyOp op) (by rw [hcap]; exact hlen)
      rw [hcap] at this
      simpa [VideoFrameBuffer.applyOps, List.foldl_cons] using this

theorem AudioFrameBuffer.applyOp_capacity_audio (b : AudioFrameBuffer)
    (op : AudioBufferOp) : (b.applyOp op).capacity = b.capacity := by
  cases op with
  | push f =>
      simp only [applyOp, push]
      by_cases hfull : b.frames.length ≥ b.capacity
      · rw [if_pos hfull]
      · rw [if_neg hfull]
  | pop =>
      simp only [applyOp, pop]
      cases hb : b.frames <;> simp [hb]
  | clear => rfl

theorem AudioFrameBuffer.applyOp_length_le_audio (b : AudioFrameBuffer)
    (op : AudioBufferOp) (h : b.frames.length ≤ b.capacity) :
    (b.applyOp op).frames.length ≤ b.capacity := by
  cases op with
  | push f =>
      simp only [applyOp, push]
      by_cases hfull : b.frames.length ≥ b.capacity
      · rw [if_pos hfull]
        exact h
      · rw [if_neg hfull]
        simp only [List.length_append, List.length_cons, List.length_nil]
        omega
  | pop =>
      simp only [applyOp, pop]
      cases hb : b.frames with
      | nil => simp [hb]
      | cons f rest =>
          rw [hb] at h
          simp only [List.length_cons] at h
          simp [hb]
          omega
  | clear => simp [applyOp, clear]

theorem AudioFrameBuffer.applyOps_length_le_audio (ops : List AudioBufferOp)
    (b : AudioFrameBuffer) (h : b.frames.length ≤ b.capacity) :
    (b.applyOps ops).frames.length ≤ b.capacity := by
  induction ops generalizing b with
  | nil => exact h
  | cons op rest ih =>
      have hcap := AudioFrameBuffer.applyOp_capacity_audio b op
      have hlen := AudioFrameBuffer.applyOp_length_le_audio b op h
      have := ih (b.applyOp op) (by rw [hcap]; exact hlen)
      rw [hcap] at this
      simpa [AudioFrameBuffer.applyOps, List.foldl_cons] using this

theorem VideoFrameBuffer.pushAll_ok (fs : List VideoFrame)
    (b : VideoFrameBuffer) (h : b.frames.length + fs.length ≤ b.capacity) :
    b.pushAll fs = Except.ok { b with frames := b.frames ++ fs } := by
  induction fs generalizing b with
  | nil => simp [pushAll]
  | cons f rest ih =>
      have hlt : ¬ (b.frames.length ≥ b.capacity) := by
        simp only [List.length_cons] at h
        omega
      rw [pushAll, push, if_neg hlt]
      have := ih { b with frames := b.frames ++ [f] }
        (by simp only [List.length_append, List.length_cons,
              List.length_nil] at *; omega)
      simpa using this

theorem VideoFrameBuffer.popN_exact (l : List VideoFrame) (C : Nat) :
    VideoFrameBuffer.popN { frames := l, capacity := C } l.length =
      (l, { frames := [], capacity := C }) := by
  induction l with
  | nil => rfl
  | cons f rest ih =>
      simp [popN, pop, ih]

theorem AudioFrameBuffer.pushAll_ok_audio (fs : List AudioFrame)
    (b : AudioFrameBuffer) (h : b.frames.length + fs.length ≤ b.capacity) :
    b.pushAll fs = Except.ok { b with frames := b.frames ++ fs } := by
  induction fs generalizing b with
  | nil => simp [pushAll]
  | cons f rest ih =>
      have hlt : ¬ (b.frames.length ≥ b.capacity) := by
        simp only [List.length_cons] at h
        omega
      rw [pushAll, push, if_neg hlt]
      have := ih { b with frames := b.frames ++ [f] }
        (by simp only [List.length_append, List.length_cons,
              List.length_nil] at *; omega)
      simpa using this

theorem AudioFrameBuffer.popN_exact_audio (l : List AudioFrame) (C : Nat) :
    AudioFrameBuffer.popN { frames := l, capacity := C } l.length =
      (l, { frames := [], capacity := C }) := by
  induction l with
  | nil => rfl
  | cons f rest ih =>
      simp [popN, pop, ih]

/-- Claim C4: for a video or audio frame buffer of capacity C, push appends
the frame to the tail and succeeds whenever the length is strictly below C;
push fails with the buffer-full error whenever the length equals C, leaving
the buffer unchanged; and after any sequence of push/pop/clear operations
starting from a fresh buffer the length never exceeds C. -/
theorem c4_buffer_capacity :
    (∀ (b : VideoFrameBuffer) (f : VideoFrame),
        (b.frames.length < b.capacity →
          b.push f = Except.ok { b with frames := b.frames ++ [f] }) ∧
        (b.frames.length = b.capacity →
          b.push f =
            Except.error (PlayerError.FrameBuffer "Video buffer is full") ∧
          b.applyOp (VideoBufferOp.push f) = b)) ∧
    (∀ (C : Nat) (ops : List VideoBufferOp),
        ((VideoFrameBuffer.new C).applyOps ops).frames.length ≤ C) ∧
    (∀ (b : AudioFrameBuffer) (f : AudioFrame),
        (b.frames.length < b.capacity →
          b.push f = Except.ok { b with frames := b.frames ++ [f] }) ∧
        (b.frames.length = b.capacity →
          b.push f =
            Except.error (PlayerError.FrameBuffer "Audio buffer is full") ∧
          b.applyOp (AudioBufferOp.push f) = b)) ∧
    (∀ (C : Nat) (ops : List AudioBufferOp),
        ((AudioFrameBuffer.new C).applyOps ops).frames.length ≤ C) := by
  refine ⟨fun b f => ⟨fun hlt => ?_, fun heq => ⟨?_, ?_⟩⟩, fun C ops => ?_,
          fun b f => ⟨fun hlt => ?_, fun heq => ⟨?_, ?_⟩⟩, fun C ops => ?_⟩
  · rw [VideoFrameBuffer.push, if_neg (by omega)]
  · rw [VideoFrameBuffer.push, if_pos (by omega)]
  · rw [VideoFrameBuffer.applyOp, VideoFrameBuffer.push, if_pos (by omega)]
  · exact VideoFrameBuffer.applyOps_length_le ops (VideoFrameBuffer.new C)
      (by simp [VideoFrameBuffer.new])
  · rw [AudioFrameBuffer.push, if_neg (by omega)]
  · rw [AudioFrameBuffer.push, if_pos (by omega)]
  · rw [AudioFrameBuffer.applyOp, AudioFrameBuffer.push, if_pos (by omega)]
  · exact AudioFrameBuffer.applyOps_length_le_audio ops (AudioFrameBuffer.new C)
      (by simp [AudioFrameBuffer.new])

/-- Witness for c4_buffer_capacity at concrete buffers: an empty 2-capacity
video buffer accepts a push, a full one rejects it, and likewise for audio;
the concrete op sequences stay within capacity. -/
theorem c4_buffer_capacity_witness :
    (({ frames := [], capacity := 2 } : VideoFrameBuffer).frames.length < 2 ∧
      ({ frames := [], capacity := 2 } : VideoFrameBuffer).push
        (testVideoFrame 100) =
        Except.ok { frames := [testVideoFrame 100], capacity := 2 }) ∧
    (({ frames := [testVideoFrame 100, testVideoFrame 200],
        capacity := 2 } : VideoFrameBuffer).frames.length = 2 ∧
      ({ frames := [testVideoFrame 100, testVideoFrame 200],
         capacity := 2 } : VideoFrameBuffer).push (testVideoFrame 300) =
        Except.error (PlayerError.FrameBuffer "Video buffer is full")) ∧
    ((VideoFrameBuffer.new 2).applyOps
        [VideoBufferOp.push (testVideoFrame 1),
         VideoBufferOp.push (testVideoFrame 2),
         VideoBufferOp.push (testVideoFrame 3)]).frames.length ≤ 2 ∧
    (({ frames := [testAudioFrame 100], capacity := 1 } :
        AudioFrameBuffer).frames.length = 1 ∧
      ({ frames := [testAudioFrame 100], capacity := 1 } :
         AudioFrameBuffer).push (testAudioFrame 200) =
        Except.error (PlayerError.FrameBuffer "Audio buffer is full")) ∧
    (({ frames := [], capacity := 1 } : AudioFrameBuffer).frames.length < 1 ∧
      ({ frames := [], capacity := 1 } : AudioFrameBuffer).push
        (testAudioFrame 5) =
        Except.ok { frames := [testAudioFrame 5], capacity := 1 }) := by
  refine ⟨⟨by decide, (c4_buffer_capacity.1 _ _).1 (by decide)⟩,
          ⟨by decide, ((c4_buffer_capacity.1 _ _).2 (by decide)).1⟩,
          c4_buffer_capacity.2.1 2 _,
          ⟨by decide, ((c4_buffer_capacity.2.2.1 _ _).2 (by decide)).1⟩,
          ⟨by decide, (c4_buffer_capacity.2.2.1 _ _).1 (by decide)⟩⟩

/-- Claim C5: pushing N frames with pairwise distinct timestamps into a
fresh buffer (all pushes succeeding because N is within capacity) and then
popping N times returns exactly the pushed frames in push order, for the
video and the audio buffer alike. -/
theorem c5_fifo_order :
    (∀ (C : Nat) (fs : List VideoFrame),
        (fs.map (fun f => f.pts_ms)).Nodup → fs.length ≤ C →
        (VideoFrameBuffer.new C).pushAll fs =
          Except.ok { frames := fs, capacity := C } ∧
        VideoFrameBuffer.popN { frames := fs, capacity := C } fs.length =
          (fs, { frames := [], capacity := C })) ∧
    (∀ (C : Nat) (fs : List AudioFrame),
        (fs.map (fun f => f.pts_ms)).Nodup → fs.length ≤ C →
        (AudioFrameBuffer.new C).pushAll fs =
          Except.ok { frames := fs, capacity := C } ∧
        AudioFrameBuffer.popN { frames := fs, capacity := C } fs.length =
          (fs, { frames := [], capacity := C })) := by
  constructor
  · intro C fs _ hlen
    constructor
    · have := VideoFrameBuffer.pushAll_ok fs (VideoFrameBuffer.new C)
        (by simpa [VideoFrameBuffer.new] using hlen)
      simpa [VideoFrameBuffer.new] using this
    · exact VideoFrameBuffer.popN_exact fs C
  · intro C fs _ hlen
    constructor
    · have := AudioFrameBuffer.pushAll_ok_audio fs (AudioFrameBuffer.new C)
        (by simpa [AudioFrameBuffer.new] using hlen)
      simpa [AudioFrameBuffer.new] using this
    · exact AudioFrameBuffer.popN_exact_audio fs C

/-- Witness for c5_fifo_order: three video frames and two audio frames with
distinct timestamps round-trip through a fresh buffer in push order. -/
theorem c5_fifo_order_witness :
    (([testVideoFrame 100, testVideoFrame 200,
       testVideoFrame 300].map (fun f => f.pts_ms)).Nodup ∧
      (3 : Nat) ≤ 5 ∧
      (VideoFrameBuffer.new 5).pushAll
          [testVideoFrame 100, testVideoFrame 200, testVideoFrame 300] =
        Except.ok { frames := [testVideoFrame 100, testVideoFrame 200,
                               testVideoFrame 300], capacity := 5 } ∧
      VideoFrameBuffer.popN
          { frames := [testVideoFrame 100, testVideoFrame 200,
                       testVideoFrame 300], capacity := 5 } 3 =
        ([testVideoFrame 100, testVideoFrame 200, testVideoFrame 300],
         { frames := [], capacity := 5 })) ∧
    (([testAudioFrame 10, testAudioFrame 20].map (fun f => f.pts_ms)).Nodup ∧
      (2 : Nat) ≤ 2 ∧
      (AudioFrameBuffer.new 2).pushAll
          [testAudioFrame 10, testAudioFrame 20] =
        Except.ok { frames := [testAudioFrame 10, testAudioFrame 20],
                    capacity := 2 } ∧
      AudioFrameBuffer.popN
          { frames := [testAudioFrame 10, testAudioFrame 20],
            capacity := 2 } 2 =
        ([testAudioFrame 10, testAudioFrame 20],
         { frames := [], capacity := 2 })) := by
  constructor
  · refine ⟨by decide, by decide, ?_⟩
    have := c5_fifo_order.1 5
      [testVideoFrame 100, testVideoFrame 200, testVideoFrame 300]
      (by decide) (by decide)
    exact ⟨this.1, this.2⟩
  · refine ⟨by decide, by decide, ?_⟩
    have := c5_fifo_order.2 2 [testAudioFrame 10, testAudioFrame 20]
      (by decide) (by decide)
    exact ⟨this.1, this.2⟩

theorem Demuxer.detect_format_ok (data : List Nat) (h : 12 ≤ data.length) :
    ∃ fmt, Demuxer.detect_format data = Except.ok fmt := by
  unfold Demuxer.detect_format
  rw [if_neg (by omega)]
  by_cases h1 : 8 ≤ data.length ∧ (data.drop 4).take 4 = ftypBytes
  · rw [if_pos h1]
    exact ⟨_, rfl⟩
  · rw [if_neg h1]
    by_cases h2 : 4 ≤ data.length ∧ data.take 4 = ebmlBytes
    · rw [if_pos h2]
      exact ⟨_, rfl⟩
    · rw [if_neg h2]
      exact ⟨_, rfl⟩

theorem Demuxer.parse_streams_ok (d : Demuxer) :
    ∃ d2, Demuxer.parse_streams d = Except.ok d2 ∧
      d2.initialized = d.initialized := by
  unfold Demuxer.parse_streams
  cases hf : d.format with
  | none => exact ⟨d, rfl, rfl⟩
  | some fmt => cases fmt <;> exact ⟨_, rfl, rfl⟩

theorem Demuxer.init_ok (d : Demuxer) (data : List Nat)
    (h : 12 ≤ data.length) :
    ∃ d2, Demuxer.init d data = (Except.ok (), d2) ∧
      d2.initialized = true := by
  obtain ⟨fmt, hfmt⟩ := Demuxer.detect_format_ok data h
  have hne : data.isEmpty = false := by
    cases data with
    | nil => simp at h
    | cons a l => rfl
  unfold Demuxer.init
  rw [hne]
  simp only [Bool.false_eq_true, if_false, hfmt]
  obtain ⟨d2, hps, hinit⟩ := Demuxer.parse_streams_ok
    { d with data := data, format := some fmt, position := 0,
             initialized := true }
  rw [hps]
  exact ⟨d2, rfl, hinit⟩

theorem Demuxer.init_err (d : Demuxer) (data : List Nat)
    (h : data.length < 12) :
    ∃ e, Demuxer.init d data = (Except.error e, d) := by
  unfold Demuxer.init
  cases data with
  | nil => exact ⟨_, rfl⟩
  | cons a l =>
      have hfmt : Demuxer.detect_format (a :: l) =
          Except.error
            (PlayerError.InvalidFormat "Data too short to detect format") := by
        unfold Demuxer.detect_format
        rw [if_pos h]
      have hne : (a :: l).isEmpty = false := rfl
      rw [hne]
      simp only [Bool.false_eq_true, if_false, hfmt]
      exact ⟨_, rfl⟩

theorem PlayerCore.load_ok (p : PlayerCore) (data : List Nat)
    (h : 12 ≤ data.length) :
    ∃ p2, p.load data = (Except.ok (), p2) ∧
      p2.state = PlayerState.Ready ∧ p2.demuxer.initialized = true := by
  obtain ⟨d2, hinit, hd2⟩ := Demuxer.init_ok p.demuxer data h
  unfold PlayerCore.load
  dsimp only
  rw [hinit]
  exact ⟨_, rfl, rfl, hd2⟩

theorem PlayerCore.load_err (p : PlayerCore) (data : List Nat)
    (h : data.length < 12) :
    ∃ e, p.load data =
      (Except.error e, { p with state := PlayerState.Loading }) := by
  obtain ⟨e, hinit⟩ := Demuxer.init_err p.demuxer data h
  unfold PlayerCore.load
  dsimp only
  rw [hinit]
  exact ⟨_, rfl⟩

/-- Claim C7, counterexample: a 12-byte buffer whose bytes 0..3 are the EBML
magic but whose bytes 4..7 are "ftyp" is detected as Mp4, not as the
Matroska family the claim requires for every buffer with the EBML magic. -/
theorem c7_format_detection_counterexample :
    12 ≤ overlapSample.length ∧
    overlapSample.take 4 = ebmlBytes ∧
    Demuxer.detect_format overlapSample = Except.ok ContainerFormat.Mp4 ∧
    ContainerFormat.Mp4 ≠ ContainerFormat.Mkv := by decide

/-- Claim C7 as amended: under 12 bytes detection and initialization are
hard errors; at least 12 bytes with "ftyp" at bytes 4..7 give Mp4 regardless
of payload; at least 12 bytes with the EBML magic at bytes 0..3 give Mkv
provided bytes 4..7 are not "ftyp" (the ftyp check takes precedence);
anything else of at least 12 bytes is Unknown and initialization succeeds. -/
theorem c7_format_detection (d : Demuxer) (data : List Nat) :
    (data.length < 12 →
      Demuxer.detect_format data =
        Except.error
          (PlayerError.InvalidFormat "Data too short to detect format") ∧
      ∃ e, Demuxer.init d data = (Except.error e, d)) ∧
    (12 ≤ data.length → (data.drop 4).take 4 = ftypBytes →
      Demuxer.detect_format data = Except.ok ContainerFormat.Mp4) ∧
    (12 ≤ data.length → data.take 4 = ebmlBytes →
      (data.drop 4).take 4 ≠ ftypBytes →
      Demuxer.detect_format data = Except.ok ContainerFormat.Mkv) ∧
    (12 ≤ data.length → (data.drop 4).take 4 ≠ ftypBytes →
      data.take 4 ≠ ebmlBytes →
      Demuxer.detect_format data = Except.ok ContainerFormat.Unknown ∧
      (Demuxer.init d data).1 = Except.ok ()) := by
  refine ⟨fun h => ⟨?_, Demuxer.init_err d data h⟩,
          fun h12 hftyp => ?_, fun h12 hebml hnf => ?_,
          fun h12 hnf hneb => ⟨?_, ?_⟩⟩
  · unfold Demuxer.detect_format
    rw [if_pos h]
  · unfold Demuxer.detect_format
    rw [if_neg (by omega), if_pos ⟨by omega, hftyp⟩]
  · unfold Demuxer.detect_format
    rw [if_neg (by omega), if_neg (fun hc => hnf hc.2),
        if_pos ⟨by omega, hebml⟩]
  · unfold Demuxer.detect_format
    rw [if_neg (by omega), if_neg (fun hc => hnf hc.2),
        if_neg (fun hc => hneb hc.2)]
  · obtain ⟨d2, hinit, _⟩ := Demuxer.init_ok d data h12
    rw [hinit]

/-- Witness for c7_format_detection at the four concrete byte buffers from
the repository tests. -/
theorem c7_format_detection_witness :
    (shortBytes.length < 12 ∧
      Demuxer.detect_format shortBytes =
        Except.error
          (PlayerError.InvalidFormat "Data too short to detect format") ∧
      ∃ e, Demuxer.init Demuxer.new shortBytes = (Except.error e,
        Demuxer.new)) ∧
    (12 ≤ sampleMp4.length ∧ (sampleMp4.drop 4).take 4 = ftypBytes ∧
      Demuxer.detect_format sampleMp4 = Except.ok ContainerFormat.Mp4) ∧
    (12 ≤ mkvSample.length ∧ mkvSample.take 4 = ebmlBytes ∧
      (mkvSample.drop 4).take 4 ≠ ftypBytes ∧
      Demuxer.detect_format mkvSample = Except.ok ContainerFormat.Mkv) ∧
    (12 ≤ unknownSample.length ∧
      (unknownSample.drop 4).take 4 ≠ ftypBytes ∧
      unknownSample.take 4 ≠ ebmlBytes ∧
      Demuxer.detect_format unknownSample =
        Except.ok ContainerFormat.Unknown ∧
      (Demuxer.init Demuxer.new unknownSample).1 = Except.ok ()) := by
  refine ⟨⟨by decide, (c7_format_detection Demuxer.new shortBytes).1
            (by decide)⟩,
          ⟨by decide, by decide, (c7_format_detection Demuxer.new
            sampleMp4).2.1 (by decide) (by decide)⟩,
          ⟨by decide, by decide, by decide, (c7_format_detection Demuxer.new
            mkvSample).2.2.1 (by decide) (by decide) (by decide)⟩,
          ⟨by decide, by decide, by decide, (c7_format_detection Demuxer.new
            unknownSample).2.2.2 (by decide) (by decide) (by decide)⟩⟩

/-- Claim C2, counterexample: from the Playing state (not Idle), load of
valid MP4 data returns Ok and transitions to Ready instead of being
rejected with an error. -/
theorem c2_load_counterexample :
    playingPlayer.state = PlayerState.Playing ∧
    playingPlayer.state ≠ PlayerState.Idle ∧
    (playingPlayer.load sampleMp4).1 = Except.ok () ∧
    (playingPlayer.load sampleMp4).2.state = PlayerState.Ready := by decide

/-- Claim C2 as amended: load performs no check of the current state; from
every state it sets the state to Loading and then, on demuxer success (data
of at least 12 bytes), to Ready returning Ok; on demuxer failure (under 12
bytes) it returns the error with the state left at Loading. -/
theorem c2_load_any_state (p : PlayerCore) (data : List Nat) :
    (12 ≤ data.length →
      (p.load data).1 = Except.ok () ∧
      (p.load data).2.state = PlayerState.Ready) ∧
    (data.length < 12 →
      (∃ e, (p.load data).1 = Except.error e) ∧
      (p.load data).2.state = PlayerState.Loading) := by
  constructor
  · intro h
    obtain ⟨p2, hl, hs, _⟩ := PlayerCore.load_ok p data h
    rw [hl]
    exact ⟨rfl, hs⟩
  · intro h
    obtain ⟨e, hl⟩ := PlayerCore.load_err p data h
    rw [hl]
    exact ⟨⟨e, rfl⟩, rfl⟩

/-- Witness for c2_load_any_state: from the Playing state, load of valid
data succeeds into Ready, and load of five bytes fails leaving Loading. -/
theorem c2_load_any_state_witness :
    (12 ≤ sampleMp4.length ∧
      (playingPlayer.load sampleMp4).1 = Except.ok () ∧
      (playingPlayer.load sampleMp4).2.state = PlayerState.Ready) ∧
    (shortBytes.length < 12 ∧
      (∃ e, (playingPlayer.load shortBytes).1 = Except.error e) ∧
      (playingPlayer.load shortBytes).2.state = PlayerState.Loading) :=
  ⟨⟨by decide, (c2_load_any_state playingPlayer sampleMp4).1 (by decide)⟩,
   ⟨by decide, (c2_load_any_state playingPlayer shortBytes).2 (by decide)⟩⟩

/-- Claim C9: play from Idle, Loading, Ended or Error is rejected with an
error and leaves the player unchanged; pause in any state other than
Playing is rejected with an error and leaves the player unchanged; and
load of valid container data followed by play, pause, play succeeds at
every step and ends in the Playing state. -/
theorem c9_play_pause_transitions :
    (∀ p : PlayerCore,
        p.state = PlayerState.Idle ∨ p.state = PlayerState.Loading ∨
        p.state = PlayerState.Ended ∨ p.state = PlayerState.Error →
        p.play = (Except.error "Cannot play: invalid state", p)) ∧
    (∀ p : PlayerCore, p.state ≠ PlayerState.Playing →
        p.pause = (Except.error "Cannot pause: not playing", p)) ∧
    (∀ (p : PlayerCore) (data : List Nat), 12 ≤ data.length →
        (p.load data).1 = Except.ok () ∧
        ((p.load data).2.play).1 = Except.ok () ∧
        (((p.load data).2.play).2.pause).1 = Except.ok () ∧
        ((((p.load data).2.play).2.pause).2.play).1 = Except.ok () ∧
        ((((p.load data).2.play).2.pause).2.play).2.state =
          PlayerState.Playing) := by
  refine ⟨fun p h => ?_, fun p h => ?_, fun p data h => ?_⟩
  · unfold PlayerCore.play
    rw [if_pos (by rcases h with h | h | h | h <;> simp [h])]
  · unfold PlayerCore.pause
    rw [if_pos h]
  · obtain ⟨p2, hl, hs, _⟩ := PlayerCore.load_ok p data h
    have hplay : p2.play =
        (Except.ok (), { p2 with state := PlayerState.Playing }) := by
      unfold PlayerCore.play
      rw [if_neg (by rw [hs]; simp)]
    have hpause : ({ p2 with state := PlayerState.Playing } :
        PlayerCore).pause =
        (Except.ok (), { p2 with state := PlayerState.Paused }) := by
      unfold PlayerCore.pause
      rw [if_neg (by simp)]
    have hplay2 : ({ p2 with state := PlayerState.Paused } :
        PlayerCore).play =
        (Except.ok (), { p2 with state := PlayerState.Playing }) := by
      unfold PlayerCore.play
      rw [if_neg (by simp)]
    rw [hl]
    simp [hplay, hpause, hplay2]

/-- Witness for c9_play_pause_transitions: a fresh Idle player rejects both
play and pause, and the load-play-pause-play sequence on sampleMp4 ends in
Playing. -/
theorem c9_play_pause_transitions_witness :
    (PlayerCore.new.state = PlayerState.Idle ∧
      PlayerCore.new.play =
        (Except.error "Cannot play: invalid state", PlayerCore.new)) ∧
    (PlayerCore.new.state ≠ PlayerState.Playing ∧
      PlayerCore.new.pause =
        (Except.error "Cannot pause: not playing", PlayerCore.new)) ∧
    (12 ≤ sampleMp4.length ∧
      (PlayerCore.new.load sampleMp4).1 = Except.ok () ∧
      ((PlayerCore.new.load sampleMp4).2.play).1 = Except.ok () ∧
      (((PlayerCore.new.load sampleMp4).2.play).2.pause).1 = Except.ok () ∧
      ((((PlayerCore.new.load sampleMp4).2.play).2.pause).2.play).1 =
        Except.ok () ∧
      ((((PlayerCore.new.load sampleMp4).2.play).2.pause).2.play).2.state =
        PlayerState.Playing) :=
  ⟨⟨by decide, c9_play_pause_transitions.1 PlayerCore.new
      (Or.inl (by decide))⟩,
   ⟨by decide, c9_play_pause_transitions.2.1 PlayerCore.new (by decide)⟩,
   ⟨by decide, c9_play_pause_transitions.2.2 PlayerCore.new sampleMp4
      (by decide)⟩⟩

/-- Claim C10: when load fails because the demuxer rejects the data, the
error is returned and the state stays Loading (not Idle, Ready, or Error);
play is then rejected leaving the player unchanged; reset returns to Idle;
and a later load of acceptable data succeeds into Ready. -/
theorem c10_failed_load_leaves_loading (p : PlayerCore)
    (data d2 : List Nat) (h : data.length < 12) (h2 : 12 ≤ d2.length) :
    (∃ e, (p.load data).1 = Except.error e) ∧
    (p.load data).2.state = PlayerState.Loading ∧
    ((p.load data).2.play) =
      (Except.error "Cannot play: invalid state", (p.load data).2) ∧
    ((p.load data).2.reset).state = PlayerState.Idle ∧
    ((p.load data).2.load d2).1 = Except.ok () ∧
    ((p.load data).2.load d2).2.state = PlayerState.Ready := by
  obtain ⟨e, hl⟩ := PlayerCore.load_err p data h
  obtain ⟨p3, hl3, hs3, _⟩ := PlayerCore.load_ok
    { p with state := PlayerState.Loading } d2 h2
  rw [hl]
  refine ⟨⟨e, rfl⟩, rfl, ?_, rfl, ?_, ?_⟩
  · unfold PlayerCore.play
    rw [if_pos (by simp)]
  · rw [show ((Except.error e,
        ({ p with state := PlayerState.Loading } : PlayerCore)) :
        Except String Unit × PlayerCore).2 =
        { p with state := PlayerState.Loading } from rfl, hl3]
  · rw [show ((Except.error e,
        ({ p with state := PlayerState.Loading } : PlayerCore)) :
        Except String Unit × PlayerCore).2 =
        { p with state := PlayerState.Loading } from rfl, hl3]
    exact hs3

/-- Witness for c10_failed_load_leaves_loading at a fresh player with the
five-byte input and sampleMp4 as the recovery data. -/
theorem c10_failed_load_leaves_loading_witness :
    shortBytes.length < 12 ∧ 12 ≤ sampleMp4.length ∧
    ((∃ e, (PlayerCore.new.load shortBytes).1 = Except.error e) ∧
      (PlayerCore.new.load shortBytes).2.state = PlayerState.Loading ∧
      ((PlayerCore.new.load shortBytes).2.play) =
        (Except.error "Cannot play: invalid state",
         (PlayerCore.new.load shortBytes).2) ∧
      ((PlayerCore.new.load shortBytes).2.reset).state = PlayerState.Idle ∧
      ((PlayerCore.new.load shortBytes).2.load sampleMp4).1 =
        Except.ok () ∧
      ((PlayerCore.new.load shortBytes).2.load sampleMp4).2.state =
        PlayerState.Ready) :=
  ⟨by decide, by decide,
   c10_failed_load_leaves_loading PlayerCore.new shortBytes sampleMp4
     (by decide) (by decide)⟩

/-- Claim C1, counterexample: on a player with an initialized demuxer, seek
succeeds but the ordered operation list it performs is exactly the demuxer
seek followed by the buffer clear; no codec-session flush occurs, contrary
to the claimed seek-clear-flush sequence. -/
theorem c1_seek_counterexample :
    demoPlayer.demuxer.initialized = true ∧
    ((demoPlayer.seekT 5000).1).1 = Except.ok () ∧
    (demoPlayer.seekT 5000).2 =
      [SeekOp.demuxSeek 5000, SeekOp.clearBuffers] ∧
    SeekOp.flushVideo ∉ (demoPlayer.seekT 5000).2 ∧
    SeekOp.flushAudio ∉ (demoPlayer.seekT 5000).2 := by decide

/-- Claim C1 as amended: for every player whose demuxer is initialized,
seek succeeds, leaves the playback state unchanged, and performs in order
the stream source's seek then the clearing of both frame-buffer queues (no
codec-session flush is performed); afterwards buffer_stats reports zero
frames on both queues. -/
theorem c1_seek_clears_buffers (p : PlayerCore) (ts : Nat)
    (h : p.demuxer.initialized = true) :
    ((p.seekT ts).1).1 = Except.ok () ∧
    ((p.seekT ts).1).2.state = p.state ∧
    (p.seekT ts).2 = [SeekOp.demuxSeek ts, SeekOp.clearBuffers] ∧
    (((p.seekT ts).1).2.buffer_stats).video_frames = 0 ∧
    (((p.seekT ts).1).2.buffer_stats).audio_frames = 0 := by
  unfold PlayerCore.seekT Demuxer.seek
  rw [if_pos h]
  refine ⟨rfl, rfl, rfl, ?_, ?_⟩ <;>
    simp [PlayerCore.buffer_stats, FrameBufferManager.stats,
          FrameBufferManager.clear, VideoFrameBuffer.clear,
          AudioFrameBuffer.clear, VideoFrameBuffer.len,
          AudioFrameBuffer.len]

/-- Witness for c1_seek_clears_buffers at demoPlayer and timestamp 5000. -/
theorem c1_seek_clears_buffers_witness :
    demoPlayer.demuxer.initialized = true ∧
    (((demoPlayer.seekT 5000).1).1 = Except.ok () ∧
      ((demoPlayer.seekT 5000).1).2.state = demoPlayer.state ∧
      (demoPlayer.seekT 5000).2 =
        [SeekOp.demuxSeek 5000, SeekOp.clearBuffers] ∧
      (((demoPlayer.seekT 5000).1).2.buffer_stats).video_frames = 0 ∧
      (((demoPlayer.seekT 5000).1).2.buffer_stats).audio_frames = 0) :=
  ⟨by decide, c1_seek_clears_buffers demoPlayer 5000 (by decide)⟩

/-- Claim C6: a cue is in cues_at t exactly when it is in the track and
start_ms <= t < end_ms (half-open interval), and on the boundary track with
the single [1000, 3000) cue the queries at 999, 1000, 2999 and 3000 return
empty, the cue, the cue, and empty. -/
theorem c6_cue_visibility :
    (∀ (track : SubtitleTrack) (t : Nat) (cue : SubtitleCue),
        cue ∈ track.cues_at t ↔
          cue ∈ track.cues ∧ cue.start_ms ≤ t ∧ t < cue.end_ms) ∧
    boundaryTrack.cues_at 999 = [] ∧
    boundaryTrack.cues_at 1000 = [boundaryCue] ∧
    boundaryTrack.cues_at 2999 = [boundaryCue] ∧
    boundaryTrack.cues_at 3000 = [] := by
  refine ⟨fun track t cue => ?_, by decide, by decide, by decide, by decide⟩
  unfold SubtitleTrack.cues_at
  rw [List.mem_filter]
  simp [ge_iff_le]

/-- Claim C3: the code at the failing inputs. Both non-primary parsers are
stubs: a non-empty WebVTT input holding one cue and a non-empty ASS input
holding one dialogue line each parse to Ok with an empty cue list, with no
error reported, so non-empty data is silently dropped. -/
theorem c3_stub_parsers_return_empty :
    vttSample ≠ [] ∧
    SubtitleParser.detect_format vttSample = SubtitleFormat.Vtt ∧
    SubtitleParser.parse vttSample none =
      Except.ok { format := SubtitleFormat.Vtt, language := none,
                  title := none, cues := [] } ∧
    assSample ≠ [] ∧
    SubtitleParser.detect_format assSample = SubtitleFormat.Ass ∧
    SubtitleParser.parse assSample none =
      Except.ok { format := SubtitleFormat.Ass, language := none,
                  title := none, cues := [] } := by decide

theorem splitOnChar_ne_nil (sep : Char) (s : List Char) :
    splitOnChar sep s ≠ [] := by
  induction s with
  | nil => simp [splitOnChar]
  | cons x xs ih =>
      unfold splitOnChar
      by_cases hx : x = sep
      · simp [hx]
      · rw [if_neg hx]
        cases hsp : splitOnChar sep xs with
        | nil => simp
        | cons g gs => simp

theorem splitOnChar_length (sep : Char) (s : List Char) :
    (splitOnChar sep s).length = s.count sep + 1 := by
  induction s with
  | nil => simp [splitOnChar]
  | cons x xs ih =>
      by_cases hx : x = sep
      · simp [splitOnChar, hx, List.count_cons, ih]
      · cases hsp : splitOnChar sep xs with
        | nil => exact absurd hsp (splitOnChar_ne_nil sep xs)
        | cons g gs =>
            rw [hsp] at ih
            simp [splitOnChar, hx, hsp, List.count_cons, beq_iff_eq] at *
            omega

theorem replaceChar_count (a b sep : Char) (hca : sep ≠ a) (hcb : sep ≠ b)
    (s : List Char) : (replaceChar a b s).count sep = s.count sep := by
  induction s with
  | nil => rfl
  | cons x xs ih =>
      by_cases hxa : x = a
      · simp [replaceChar, hxa, List.count_cons, beq_iff_eq,
              Ne.symm hcb, Ne.symm hca] at *
        exact ih
      · simp [replaceChar, hxa, List.count_cons, beq_iff_eq] at *
        omega

theorem parse_srt_timestamp_shape (s : List Char)
    (h : (SubtitleParser.parse_srt_timestamp s).isSome = true) :
    (splitOnChar ':' (replaceChar ',' '.' s)).length = 3 := by
  unfold SubtitleParser.parse_srt_timestamp at h
  cases hps : splitOnChar ':' (replaceChar ',' '.' s) with
  | nil => rw [hps] at h; simp at h
  | cons p0 t0 =>
    cases t0 with
    | nil => rw [hps] at h; simp at h
    | cons p1 t1 =>
      cases t1 with
      | nil => rw [hps] at h; simp at h
      | cons p2 t2 =>
        cases t2 with
        | nil => simp [hps]
        | cons p3 t3 => rw [hps] at h; simp at h

/-- Claim C8: parse_srt_timestamp succeeds only on strings with exactly
three colon-delimited components; "01:30:45,123" parses to 5445123 ms,
"00:00:01.000" (period delimiter) parses to 1000 ms, and "invalid" and
"00:00" both fail to parse. -/
theorem c8_timestamp_parsing :
    (∀ s : List Char,
        (SubtitleParser.parse_srt_timestamp s).isSome = true →
        (splitOnChar ':' s).length = 3) ∧
    SubtitleParser.parse_srt_timestamp "01:30:45,123".data = some 5445123 ∧
    SubtitleParser.parse_srt_timestamp "00:00:01.000".data = some 1000 ∧
    SubtitleParser.parse_srt_timestamp "invalid".data = none ∧
    SubtitleParser.parse_srt_timestamp "00:00".data = none := by
  refine ⟨fun s h => ?_, by decide, by decide, by decide, by decide⟩
  have h3 := parse_srt_timestamp_shape s h
  rw [splitOnChar_length] at h3 ⊢
  rw [replaceChar_count ',' '.' ':' (by decide) (by decide)] at h3
  exact h3

/-- Witness for c8_timestamp_parsing: the comma-form timestamp parses and
indeed has three colon-delimited components. -/
theorem c8_timestamp_parsing_witness :
    (SubtitleParser.parse_srt_timestamp "01:30:45,123".data).isSome =
      true ∧
    (splitOnChar ':' "01:30:45,123".data).length = 3 :=
  ⟨by decide, c8_timestamp_parsing.1 "01:30:45,123".data (by decide)⟩
